import Mathlib

set_option maxHeartbeats 1000000
set_option maxRecDepth 4000

/-
Shallow embedding of `src/python/pacemaker/_cts/scenarios.py`: the Scenario
lifecycle (component setup/teardown), the per-test execution wrapper
`run_test`, the log-based fault audit with its 1000-line runaway circuit
breaker, and the AllOnce/Sequence run strategies.

External collaborators (cluster manager, audits, tests, the BadNews
LogWatcher) are modelled by their observable behaviour over one call:
boolean results, the stream of log lines the watcher will deliver, and the
ignore-pattern lists they supply.  Every call the scenario engine makes to
a collaborator, and every log line it emits, is recorded in an event trace.
-/

/-- A compiled regular-expression pattern, modelled by its search function:
`p line = true` exactly when `re.search(pattern, line)` would find a match
somewhere in `line`. -/
abbrev Pat : Type := String → Bool

/-- Decide whether the character list `p` is a prefix of the second list. -/
def listStartsWith : List Char → List Char → Bool
  | [], _ => true
  | _ :: _, [] => false
  | a :: as, b :: bs => a == b && listStartsWith as bs

/-- Decide whether `p` occurs as a contiguous sublist (substring search). -/
def listOccurs (p : List Char) : List Char → Bool
  | [] => listStartsWith p []
  | c :: rest => listStartsWith p (c :: rest) || listOccurs p rest

/-- Substring search on strings: this is `re.search` for a pattern with no
regex metacharacters, such as the fixed `"CTS:"` pattern. -/
def containsStr (pat s : String) : Bool := listOccurs pat.data s.data

/-- The fixed `"CTS:"` pattern that heads every assembled ignore-list
(`ignorelist = ["CTS:"]`, scenarios.py line 240). -/
def ctsPat : Pat := fun line => containsStr "CTS:" line

/-- The Scenario statistics dictionary (`self.stats`), modelled as a total
function from counter name to count: a key missing from the dict reads as
zero, which matches `incr`'s lazy zero-initialisation (scenarios.py
lines 135-139), and `__init__` presets "success"/"failure"/"BadNews"/
"skipped" to zero. -/
abbrev Stats : Type := String → Nat

/-- Increment (or lazily initialise) the counter `name`, mirroring
`Scenario.incr` (scenarios.py lines 135-139). -/
def Stats.incr (s : Stats) (name : String) : Stats :=
  fun k => if k = name then s name + 1 else s k

/-- Statistics of a freshly constructed Scenario: every counter is zero. -/
def initStats : Stats := fun _ => 0

/-- Check one drained log line against the assembled ignore-list: the line
is ignored exactly when ANY pattern matches it (the `add_err` loop at
scenarios.py lines 263-266; the first match short-circuits). -/
def isIgnored (ignorelist : List Pat) (line : String) : Bool :=
  ignorelist.any (fun p => p line)

/-- Observable collaborator calls and log/print lines of the scenario
engine, recorded in order in a trace. -/
inductive Event : Type where
  | prepare
  | waitAllNodes
  | installSupport
  | setWatch
  | compSetup (i : Nat)
  | compTeardown (i : Nat)
  | auditPassed (name : String)
  | auditFailed (name : String)
  | logBadNews (line : String)
  | printBigProblems
  | logShuttingDown
  | summarize
  | watchEnd
  | uninstall
  | logTearingDown
  | instClear
  | logRunning (name node : String) (count : Nat)
  | logSetupFailed
  | logSkipped
  | testSkippedCall
  | logTeardownFailed
  | oprofileSave (count : Nat)
  | statall
  | logTimer
  | testSetup (node : String)
  | testCanRun (node : String)
  | testInvoke (node : String)
  | testTeardown (node : String)
  deriving DecidableEq, Repr

/-- Behaviour of one ScenarioComponent over a single Scenario run: the
boolean results its `setup()` and `teardown()` calls would return
(scenarios.py lines 16-37; concrete components such as BootCluster at
lines 321-359). -/
structure ScenarioComponent where
  setupOk : Bool
  teardownOk : Bool
  deriving DecidableEq, Repr

/-- Behaviour of one registered Audit collaborator for one invocation:
its `name` and the boolean its call returns. -/
structure ClusterAudit where
  name : String
  result : Bool
  deriving DecidableEq, Repr

/-- The collaborators a Scenario reads: its component list, its audit list,
the two collaborator-supplied ignore-pattern lists
(`self._cm.errorstoignore()` and `self._cm.instance_errorstoignore()`),
and the environment's "continue on failure" policy
(`should_continue(self._cm.Env)`). -/
structure ScenEnv where
  components : List ScenarioComponent
  audits : List ClusterAudit
  cmIgnore : List Pat
  instIgnore : List Pat
  contOnFail : Bool

/-- Mutable state of a running Scenario: the statistics dictionary, the
queue of log lines the BadNews LogWatcher will still deliver (oldest
first; `look(0)` pops the head and returns None when empty — drain, not
peek), whether `self._bad_news` has been constructed yet, and the event
trace so far. -/
structure ScenState where
  stats : Stats
  pending : List String
  hasBadNews : Bool
  trace : List Event

/-- Result of the audit's drain loop (`while errcount < 1000`, scenarios.py
lines 257-272): the lines still queued when the loop stopped, the final
`errcount`, the unignored ("BadNews") lines in drain order, and whether
the loop ran off the end of its bound (the `while`/`else` runaway branch,
which Python enters when the loop condition `errcount < 1000` goes false
rather than the loop `break`ing on a no-match poll). -/
structure DrainRes where
  remaining : List String
  errcount : Nat
  bad : List String
  runaway : Bool
  deriving DecidableEq, Repr

/-- The drain loop of `Scenario.audit` (scenarios.py lines 257-272).  Each
iteration first checks `errcount < 1000`; on failure of that check the
`while`/`else` (runaway) branch is taken.  Otherwise `look(0)` pops the
next queued line; no line means `break`; an ignored line is consumed
silently; an unignored line is logged, counted into "BadNews" and into
`errcount`.  The per-line log/increment effects are returned as the `bad`
list, in drain order. -/
def drainGo (ign : List Pat) : List String → Nat → DrainRes
  | [], err =>
    if err < 1000 then { remaining := [], errcount := err, bad := [], runaway := false }
    else { remaining := [], errcount := err, bad := [], runaway := true }
  | line :: rest, err =>
    if err < 1000 then
      if isIgnored ign line then drainGo ign rest err
      else
        let r := drainGo ign rest (err + 1)
        { r with bad := line :: r.bad }
    else { remaining := line :: rest, errcount := err, bad := [], runaway := true }

/-- Every line the drain loop reports had to be consumed from the queue, so
a runaway (which needs `errcount` to climb from `err` to 1000) leaves at
least `1000 - err` fewer lines queued.  Used for termination of the
mutually recursive audit/teardown pair. -/
theorem drainGo_runaway_le (ign : List Pat) :
    ∀ (p : List String) (err : Nat), (drainGo ign p err).runaway = true →
      (drainGo ign p err).remaining.length + (1000 - err) ≤ p.length := by
  intro p
  induction p with
  | nil =>
    intro err h
    by_cases he : err < 1000
    · simp [drainGo, he] at h
    · simp [drainGo, he]
      omega
  | cons line rest ih =>
    intro err h
    by_cases he : err < 1000
    · by_cases hi : isIgnored ign line = true
      · simp only [drainGo, if_pos he, if_pos hi] at h ⊢
        have := ih err h
        simp only [List.length_cons]
        omega
      · simp only [drainGo, if_pos he, if_neg hi] at h ⊢
        have := ih (err + 1) h
        simp only [List.length_cons]
        omega
    · simp only [drainGo, if_neg he] at h ⊢
      simp
      omega

/-- The ignore-list assembled per audit call (scenarios.py lines 240-246):
the fixed `"CTS:"` pattern, then the caller's `local_ignore`, then the two
collaborator-supplied lists.  (`if local_ignore:` skips extending with an
empty/None list, which is extensionally the same as appending it.) -/
def mkIgnorelist (env : ScenEnv) (localIgnore : List Pat) : List Pat :=
  ctsPat :: (localIgnore ++ env.cmIgnore ++ env.instIgnore)

/-- Per-audit events of invoking every registered Audit collaborator
(scenarios.py lines 249-255): a FAILED log or a passed debug line each. -/
def auditTraceEvents (env : ScenEnv) : List Event :=
  env.audits.map (fun a => if a.result then Event.auditPassed a.name else Event.auditFailed a.name)

/-- Number of registered Audit collaborators whose invocation returned
false: the `failed` counter, which is `Scenario.audit`'s return value. -/
def failedCount (env : ScenEnv) : Nat :=
  (env.audits.filter (fun a => a.result == false)).length

/-- The drain performed by one audit call: if `self._bad_news` is not yet
constructed, `look` is never called, the first poll "returns" None and the
loop breaks at once with nothing consumed. -/
def drainOf (env : ScenEnv) (localIgnore : List Pat) (st : ScenState) : DrainRes :=
  if st.hasBadNews then drainGo (mkIgnorelist env localIgnore) st.pending 0
  else { remaining := st.pending, errcount := 0, bad := [], runaway := false }

/-- Scenario state after the audit-collaborator loop and the drain loop of
one audit call: audit pass/fail events appended, each unignored line
logged (`BadNews: ...`) and counted into the "BadNews" statistic, the
consumed lines removed from the queue. -/
def auditPreState (env : ScenEnv) (localIgnore : List Pat) (st : ScenState) : ScenState :=
  { st with
    pending := (drainOf env localIgnore st).remaining
    stats := (drainOf env localIgnore st).bad.foldl (fun s _ => s.incr "BadNews") st.stats
    trace := st.trace ++ auditTraceEvents env
      ++ (drainOf env localIgnore st).bad.map Event.logBadNews }

/-- Scenario state on the fatal runaway path, just before `self.teardown()`
is invoked: `print("Big problems")`, the "Shutting down." log, and the
(log-only) `summarize()` call (scenarios.py lines 274-278). -/
def auditFatalPreState (env : ScenEnv) (localIgnore : List Pat) (st : ScenState) : ScenState :=
  { auditPreState env localIgnore st with
    trace := (auditPreState env localIgnore st).trace
      ++ [Event.printBigProblems, Event.logShuttingDown, Event.summarize] }

/-- Scenario state when an audit call returns normally: after the drain, a
runaway that the "continue on failure" policy tolerates only prints "Big
problems"; finally `self._bad_news.end()` is called when the watcher
exists (scenarios.py lines 273-282). -/
def auditOkState (env : ScenEnv) (localIgnore : List Pat) (st : ScenState) : ScenState :=
  { auditPreState env localIgnore st with
    trace := (auditPreState env localIgnore st).trace
      ++ (if (drainOf env localIgnore st).runaway then [Event.printBigProblems] else [])
      ++ (if st.hasBadNews then [Event.watchEnd] else []) }

/-- Indices torn down by `Scenario.teardown(n_components)` (scenarios.py
lines 119-131), in order: `countdown k = [k, k-1, ..., 0]`. -/
def countdown : Nat → List Nat
  | 0 => [0]
  | n + 1 => (n + 1) :: countdown n

/-- Indices for a full teardown of `len` components: `[len-1, ..., 0]`,
empty when there are no components (in Python, `n_components` becomes
`len-1 = -1` and the `while j >= 0` loop does not run). -/
def countdownFrom : Nat → List Nat
  | 0 => []
  | n + 1 => countdown n

/-- The index sequence `Scenario.teardown` walks: `if not n_components:`
treats BOTH an omitted argument and an explicit `0` as "absent" (0 is
falsy in Python), substituting the full range `len-1 .. 0`; any other
explicit `k` gives `k .. 0` inclusive. -/
def teardownIdxList (nComp : Option Nat) (len : Nat) : List Nat :=
  match nComp with
  | none => countdownFrom len
  | some 0 => countdownFrom len
  | some (k + 1) => countdown (k + 1)

mutual

/-- `Scenario.audit` (scenarios.py lines 237-283).  Builds the ignore-list,
invokes every registered Audit collaborator (counting failures), then
drains the BadNews watcher.  If the drain runs away (1000 unignored lines
without a no-match poll) and the "continue on failure" policy is off, it
logs, summarizes, tears the whole Scenario down and raises
`ValueError("Looks like we hit a BadNews jackpot!")`; the error value
carries the message and the Scenario state at the raise.  Otherwise the
call returns the failed-audit count. -/
def Scenario.audit (env : ScenEnv) (localIgnore : List Pat) (st : ScenState) :
    Except (String × ScenState) (Nat × ScenState) :=
  if h : ((drainOf env localIgnore st).runaway && !env.contOnFail) = true then
    match Scenario.teardown env none (auditFatalPreState env localIgnore st) with
    | .error e => .error e
    | .ok st5 => .error ("Looks like we hit a BadNews jackpot!", st5)
  else
    .ok (failedCount env, auditOkState env localIgnore st)
termination_by st.pending.length * 2
decreasing_by
  simp only [auditFatalPreState, auditPreState]
  have hb : (drainOf env localIgnore st).runaway = true := by
    rcases hx : (drainOf env localIgnore st).runaway with _ | _
    · rw [hx] at h; simp at h
    · rfl
  have hw : st.hasBadNews = true := by
    rcases hx : st.hasBadNews with _ | _
    · rw [drainOf, if_neg (by simp [hx])] at hb; simp at hb
    · rfl
  rw [drainOf, if_pos hw] at hb ⊢
  have := drainGo_runaway_le (mkIgnorelist env localIgnore) st.pending 0 hb
  simp only [Nat.sub_zero] at this
  omega

/-- `Scenario.teardown` (scenarios.py lines 119-133).  Walks the component
indices in strict descending order calling each component's `teardown()`
— the boolean result of each call is discarded (neither checked nor
logged) — then runs the Fault Audit once and uninstalls support services.
The audit can itself raise (runaway path), which propagates. -/
def Scenario.teardown (env : ScenEnv) (nComp : Option Nat) (st : ScenState) :
    Except (String × ScenState) ScenState :=
  match Scenario.audit env []
      { st with trace := st.trace
          ++ (teardownIdxList nComp env.components.length).map Event.compTeardown } with
  | .error e => .error e
  | .ok (_, st2) => .ok { st2 with trace := st2.trace ++ [Event.uninstall] }
termination_by st.pending.length * 2 + 1

end

/-- The component loop of `Scenario.setup` (scenarios.py lines 106-117),
iterating over the remaining component list with `j` the index of its
head.  Each component's `setup()` is called in list order; on the first
boolean-false result the loop stops, runs the Fault Audit, logs "Tearing
down partial setup", invokes `self.teardown(j)` with the FAILING index and
returns false; if every component succeeds a final audit runs and the
call returns true. -/
def Scenario.setupGo (env : ScenEnv) :
    List ScenarioComponent → Nat → ScenState → Except (String × ScenState) (Bool × ScenState)
  | [], _, st =>
    match Scenario.audit env [] st with
    | .error e => .error e
    | .ok (_, st2) => .ok (true, st2)
  | c :: rest, j, st =>
    if c.setupOk then
      Scenario.setupGo env rest (j + 1) { st with trace := st.trace ++ [Event.compSetup j] }
    else
      match Scenario.audit env [] { st with trace := st.trace ++ [Event.compSetup j] } with
      | .error e => .error e
      | .ok (_, st2) =>
        match Scenario.teardown env (some j)
            { st2 with trace := st2.trace ++ [Event.logTearingDown] } with
        | .error e => .error e
        | .ok st4 => .ok (false, st4)

/-- `Scenario.setup` (scenarios.py lines 89-117): prepare the cluster
manager, audit, wait for all nodes, audit again, install support, build
and arm the BadNews LogWatcher (from here on `self._bad_news` is set),
then run the component loop. -/
def Scenario.setup (env : ScenEnv) (st : ScenState) :
    Except (String × ScenState) (Bool × ScenState) :=
  match Scenario.audit env [] { st with trace := st.trace ++ [Event.prepare] } with
  | .error e => .error e
  | .ok (_, st2) =>
    match Scenario.audit env [] { st2 with trace := st2.trace ++ [Event.waitAllNodes] } with
    | .error e => .error e
    | .ok (_, st4) =>
      Scenario.setupGo env env.components 0
        { st4 with
          trace := st4.trace ++ [Event.installSupport, Event.setWatch]
          hasBadNews := true }

/-- Modelled from the spec: the Test collaborator contract (class CTSTest
lives outside src/; see spec section 6).  One test's behaviour for a single
`run_test` call: the boolean results of `setup(node)`, `can_run_now(node)`,
the test body invocation and `teardown(node)`, plus the instance-scoped
`errors_to_ignore` patterns it supplies to the post-test audit. -/
structure CTSTest where
  name : String
  setupOk : Bool
  canRunNow : Bool
  invokeOk : Bool
  teardownOk : Bool
  errorsToIgnore : List Pat

/-- Modelled from the spec: the per-test private statistics dictionary
(spec section 3), of which `run_test` touches the timing keys — guarded by
`if "min_time" not in test.stats:` — and (via the collaborator's
`skipped()` call) the `skipped` counter.  `hasTimes` records whether
"min_time" is a key yet; times are wall-clock values, modelled as
integers. -/
structure TStats where
  hasTimes : Bool
  elapsed_time : Int
  min_time : Int
  max_time : Int
  skipped : Nat
  deriving DecidableEq, Repr

/-- Wall-clock readings a single `run_test` call observes: `starttime` is
what `test.set_timer()` returns, `stoptime` the `time.time()` reading at
line 184, and `timerv` what `test.get_timer()` returns. -/
structure RunTimes where
  starttime : Int
  stoptime : Int
  timerv : Int
  deriving DecidableEq, Repr

/-- `Scenario.run_test` (scenarios.py lines 153-209).  Clears the instance
ignore-list, logs the test header, calls `test.setup(node)`; on setup
failure the outcome is failure (skip execution); else `can_run_now(node)`
false marks the test skipped (outcome unchanged, i.e. still success);
else the body runs and its boolean is the outcome, with `did_run = true`.
`test.teardown(node)` is then always called: a teardown failure is logged
and — with the "continue on failure" policy off — raises
`ValueError("Teardown of <test> on <node> failed")`, otherwise it becomes
a failure outcome.  Timing statistics are folded into the test's private
stats; a success increments the Scenario's "success" counter, any failure
increments "failure", dumps cluster state and forces `did_run = true`.
Finally the Fault Audit runs with the test's instance-scoped ignore
patterns, and `did_run` is returned. -/
def Scenario.run_test (env : ScenEnv) (t : CTSTest) (node : String) (testcount : Nat)
    (times : RunTimes) (st : ScenState) (ts : TStats) :
    Except (String × ScenState × TStats) (Bool × ScenState × TStats) :=
  let st0 : ScenState :=
    { st with trace := st.trace ++ [Event.instClear, Event.logRunning t.name node testcount] }
  let stage : Bool × Bool × List Event × TStats :=
    if !t.setupOk then
      (false, false, [Event.testSetup node, Event.logSetupFailed], ts)
    else if !t.canRunNow then
      (true, false,
        [Event.testSetup node, Event.testCanRun node, Event.logSkipped, Event.testSkippedCall],
        { ts with skipped := ts.skipped + 1 })
    else
      (t.invokeOk, true, [Event.testSetup node, Event.testCanRun node, Event.testInvoke node], ts)
  let ret1 := stage.1
  let didRun1 := stage.2.1
  let ts1 := stage.2.2.2
  let st1 : ScenState :=
    { st0 with trace := st0.trace ++ stage.2.2.1 ++ [Event.testTeardown node] }
  if !t.teardownOk && !env.contOnFail then
    .error ("Teardown of " ++ t.name ++ " on " ++ node ++ " failed",
      { st1 with trace := st1.trace ++ [Event.logTeardownFailed] }, ts1)
  else
    let ret2 := if !t.teardownOk then false else ret1
    let st2 : ScenState :=
      { st1 with trace := st1.trace
          ++ (if !t.teardownOk then [Event.logTeardownFailed] else [])
          ++ [Event.oprofileSave testcount] }
    let elapsed := times.stoptime - times.starttime
    let testTime := times.stoptime - times.timerv
    let ts2 : TStats :=
      if !ts1.hasTimes then
        { ts1 with hasTimes := true, elapsed_time := elapsed,
                   min_time := testTime, max_time := testTime }
      else
        { ts1 with
          elapsed_time := ts1.elapsed_time + elapsed
          min_time := if testTime < ts1.min_time then testTime else ts1.min_time
          max_time := if testTime > ts1.max_time then testTime else ts1.max_time }
    let outco : Bool × ScenState :=
      if ret2 then
        (didRun1, { st2 with stats := st2.stats.incr "success",
                             trace := st2.trace ++ [Event.logTimer] })
      else
        (true, { st2 with stats := st2.stats.incr "failure",
                          trace := st2.trace ++ [Event.statall] })
    match Scenario.audit env t.errorsToIgnore outco.2 with
    | .error (m, stE) => .error (m, stE, ts2)
    | .ok (_, stOk) => .ok (outco.1, stOk, ts2)

/-- Pair each test of a single pass with its running `testcount`, which
increments by one per `run_test` invocation. -/
def passPairs {α : Type} : List α → Nat → List (α × Nat)
  | [], _ => []
  | t :: ts, tc => (t, tc) :: passPairs ts (tc + 1)

/-- The `while testcount <= Iterations` loop of `Sequence.run_loop`
(scenarios.py lines 307-312) starting at `testcount = tc`: the loop
condition is only checked between FULL passes over the registered list;
the inner `for` always finishes the pass it started.  (For an empty test
list the Python loop never terminates; the embedding is stated for runs
with at least one registered test via the guard.) -/
def seqGo {α : Type} (tests : List α) (k : Nat) (tc : Nat) : List (α × Nat) :=
  if tc ≤ k ∧ 0 < tests.length then
    passPairs tests tc ++ seqGo tests k (tc + tests.length)
  else []
termination_by k + 1 - tc
decreasing_by
  rename_i h
  omega

/-- `Sequence.run_loop` (scenarios.py lines 305-312): the sequence of
`(test, testcount)` arguments passed to `run_test`, in invocation order. -/
def Sequence.run_loop {α : Type} (tests : List α) (iterations : Nat) : List (α × Nat) :=
  seqGo tests iterations 1

/-- `AllOnce.run_loop` (scenarios.py lines 286-292): one pass over every
registered test in registration order; the `Iterations` argument is never
read. -/
def AllOnce.run_loop {α : Type} (tests : List α) (iterations : Nat) : List (α × Nat) :=
  passPairs tests 1

/-- Indices of `compSetup` events in a trace: the components whose
`setup()` was actually invoked, in call order. -/
def setupIdxs (tr : List Event) : List Nat :=
  tr.filterMap (fun e => match e with | Event.compSetup i => some i | _ => none)

/-- Indices of `compTeardown` events in a trace: the components whose
`teardown()` was actually invoked, in call order. -/
def teardownIdxs (tr : List Event) : List Nat :=
  tr.filterMap (fun e => match e with | Event.compTeardown i => some i | _ => none)

/-- Count of audit-internal observable events (audit collaborator calls,
BadNews log lines, watcher end) in a trace; used to state that a given
code path never reached the Fault Audit. -/
def auditEvCount (tr : List Event) : Nat :=
  tr.countP (fun e => match e with
    | Event.auditPassed _ => true
    | Event.auditFailed _ => true
    | Event.logBadNews _ => true
    | Event.watchEnd => true
    | _ => false)

/- Supporting lemmas. -/

theorem Stats.incr_same (s : Stats) (k : String) : (s.incr k) k = s k + 1 := by
  simp [Stats.incr]

theorem Stats.incr_other (s : Stats) (k k' : String) (h : k' ≠ k) : (s.incr k) k' = s k' := by
  simp [Stats.incr, h]

theorem badNewsFold_at (l : List String) (s : Stats) :
    (l.foldl (fun acc _ => acc.incr "BadNews") s) "BadNews" = s "BadNews" + l.length := by
  induction l generalizing s with
  | nil => simp
  | cons x xs ih =>
    simp only [List.foldl_cons, List.length_cons]
    rw [ih, Stats.incr_same]
    omega

theorem badNewsFold_other (l : List String) (s : Stats) (k : String) (h : k ≠ "BadNews") :
    (l.foldl (fun acc _ => acc.incr "BadNews") s) k = s k := by
  induction l generalizing s with
  | nil => simp
  | cons x xs ih =>
    simp only [List.foldl_cons]
    rw [ih, Stats.incr_other _ _ _ h]

/-- Unfolding of `Scenario.audit` when the call returns normally (no
runaway, or runaway tolerated by the "continue on failure" policy). -/
theorem Scenario.audit_ok (env : ScenEnv) (lig : List Pat) (st : ScenState)
    (h : ((drainOf env lig st).runaway && !env.contOnFail) = false) :
    Scenario.audit env lig st = .ok (failedCount env, auditOkState env lig st) := by
  rw [Scenario.audit]
  simp [h]

/-- Unfolding of `Scenario.audit` on the fatal runaway path. -/
theorem Scenario.audit_fatal (env : ScenEnv) (lig : List Pat) (st : ScenState)
    (h : ((drainOf env lig st).runaway && !env.contOnFail) = true) :
    Scenario.audit env lig st =
      match Scenario.teardown env none (auditFatalPreState env lig st) with
      | .error e => .error e
      | .ok st5 => .error ("Looks like we hit a BadNews jackpot!", st5) := by
  rw [Scenario.audit]
  simp [h]

theorem drainOf_nil (env : ScenEnv) (lig : List Pat) (st : ScenState) (h : st.pending = []) :
    drainOf env lig st = { remaining := [], errcount := 0, bad := [], runaway := false } := by
  rw [drainOf, h]
  by_cases hb : st.hasBadNews <;> simp [hb, drainGo]

/-- An audit call finding an empty BadNews queue returns the failed-audit
count, leaves the statistics untouched and only appends the audit
collaborator events (plus `end()` when the watcher exists). -/
theorem Scenario.audit_nil (env : ScenEnv) (lig : List Pat) (st : ScenState)
    (h : st.pending = []) :
    Scenario.audit env lig st = .ok (failedCount env,
      { st with pending := [],
                trace := st.trace ++ (auditTraceEvents env
                  ++ (if st.hasBadNews then [Event.watchEnd] else [])) }) := by
  have hd := drainOf_nil env lig st h
  rw [Scenario.audit_ok env lig st (by rw [hd]; rfl)]
  simp [auditOkState, auditPreState, hd, h]

/-- A teardown call with an empty BadNews queue never raises: it tears the
selected indices down in descending order, audits, uninstalls support. -/
theorem Scenario.teardown_nil (env : ScenEnv) (n : Option Nat) (st : ScenState)
    (h : st.pending = []) :
    Scenario.teardown env n st = .ok
      { st with pending := [],
                trace := st.trace
                  ++ ((teardownIdxList n env.components.length).map Event.compTeardown
                    ++ (auditTraceEvents env
                      ++ (if st.hasBadNews then [Event.watchEnd] else [])
                      ++ [Event.uninstall])) } := by
  rw [Scenario.teardown]
  rw [Scenario.audit_nil env [] _ (by simp [h])]
  simp

/-- A drain that stops on a no-match poll (no runaway) has consumed the
whole queue, and its BadNews lines are exactly the unignored lines, in
order. -/
theorem drainGo_not_runaway (ign : List Pat) :
    ∀ (p : List String) (err : Nat), (drainGo ign p err).runaway = false →
      (drainGo ign p err).bad = p.filter (fun l => !isIgnored ign l) ∧
      (drainGo ign p err).remaining = [] := by
  intro p
  induction p with
  | nil =>
    intro err h
    by_cases he : err < 1000 <;> simp [drainGo, he] at h ⊢
  | cons line rest ih =>
    intro err h
    by_cases he : err < 1000
    · by_cases hi : isIgnored ign line = true
      · have hrec := ih err (by simpa [drainGo, he, hi] using h)
        simp [drainGo, he, hi, List.filter_cons, hrec.1, hrec.2]
      · replace hi : isIgnored ign line = false := by
          rcases hx : isIgnored ign line with _ | _
          · rfl
          · exact absurd hx hi
        have hrec := ih (err + 1) (by simpa [drainGo, he, hi] using h)
        simp [drainGo, he, hi, List.filter_cons, hrec.1, hrec.2]
    · simp [drainGo, he] at h

/-- A drain over `n` copies of one unignored line runs away as soon as the
queue can carry `errcount` from `err` to the 1000 bound, consuming exactly
`1000 - err` lines. -/
theorem drainGo_replicate_runaway (ign : List Pat) (line : String)
    (hline : isIgnored ign line = false) :
    ∀ (n err : Nat), err ≤ 1000 → 1000 ≤ n + err →
      drainGo ign (List.replicate n line) err =
        { remaining := List.replicate (n - (1000 - err)) line, errcount := 1000,
          bad := List.replicate (1000 - err) line, runaway := true } := by
  intro n
  induction n with
  | zero =>
    intro err h1 h2
    have : err = 1000 := by omega
    subst this
    simp [drainGo]
  | succ n ih =>
    intro err h1 h2
    by_cases he : err < 1000
    · rw [List.replicate_succ]
      have e1 : n - (1000 - (err + 1)) = n + 1 - (1000 - err) := by omega
      have e2 : 1000 - err = (1000 - (err + 1)) + 1 := by omega
      simp only [drainGo, he, hline, ih (err + 1) (by omega) (by omega), e1]
      rw [e2, List.replicate_succ]
      simp
    · have : err = 1000 := by omega
      subst this
      rw [List.replicate_succ]
      simp [drainGo, List.replicate_succ]

theorem countdown_eq (k : Nat) : countdown k = (List.range (k + 1)).reverse := by
  induction k with
  | zero => rfl
  | succ n ih =>
    rw [countdown, List.range_succ, List.reverse_append, ih]
    rfl

theorem countdownFrom_eq (len : Nat) : countdownFrom len = (List.range len).reverse := by
  cases len with
  | zero => rfl
  | succ n => rw [countdownFrom, countdown_eq]

theorem setupIdxs_append (a b : List Event) :
    setupIdxs (a ++ b) = setupIdxs a ++ setupIdxs b := by
  simp [setupIdxs]

theorem teardownIdxs_append (a b : List Event) :
    teardownIdxs (a ++ b) = teardownIdxs a ++ teardownIdxs b := by
  simp [teardownIdxs]

theorem setupIdxs_auditTrace (env : ScenEnv) : setupIdxs (auditTraceEvents env) = [] := by
  simp only [setupIdxs, auditTraceEvents, List.filterMap_map]
  rw [List.filterMap_eq_nil_iff]
  intro a _
  by_cases h : a.result <;> simp [h]

theorem teardownIdxs_auditTrace (env : ScenEnv) : teardownIdxs (auditTraceEvents env) = [] := by
  simp only [teardownIdxs, auditTraceEvents, List.filterMap_map]
  rw [List.filterMap_eq_nil_iff]
  intro a _
  by_cases h : a.result <;> simp [h]

theorem setupIdxs_compTeardown (l : List Nat) :
    setupIdxs (l.map Event.compTeardown) = [] := by
  simp only [setupIdxs, List.filterMap_map]
  rw [List.filterMap_eq_nil_iff]
  intro a _
  rfl

theorem teardownIdxs_compTeardown (l : List Nat) :
    teardownIdxs (l.map Event.compTeardown) = l := by
  induction l with
  | nil => rfl
  | cons x xs ih => simpa [teardownIdxs] using ih

theorem setupIdxs_compSetup (l : List Nat) :
    setupIdxs (l.map Event.compSetup) = l := by
  induction l with
  | nil => rfl
  | cons x xs ih => simpa [setupIdxs] using ih

theorem teardownIdxs_compSetup (l : List Nat) :
    teardownIdxs (l.map Event.compSetup) = [] := by
  induction l with
  | nil => rfl
  | cons x xs ih => simpa [teardownIdxs] using ih

/-- Normal form of the component loop when every remaining component's
`setup()` succeeds: all of them are set up in index order, a final audit
runs, and the loop reports overall success without any teardown. -/
theorem Scenario.setupGo_ok (env : ScenEnv) :
    ∀ (cs : List ScenarioComponent) (j : Nat) (st : ScenState),
      st.pending = [] → (∀ c ∈ cs, c.setupOk = true) →
      Scenario.setupGo env cs j st = .ok (true,
        { st with pending := [],
                  trace := st.trace ++ ((List.range' j cs.length).map Event.compSetup
                    ++ (auditTraceEvents env
                      ++ (if st.hasBadNews then [Event.watchEnd] else []))) }) := by
  intro cs
  induction cs with
  | nil =>
    intro j st hp _
    simp only [Scenario.setupGo]
    rw [Scenario.audit_nil env [] st hp]
    simp
  | cons c rest ih =>
    intro j st hp hall
    have hc : c.setupOk = true := hall c (by simp)
    simp only [Scenario.setupGo, hc, if_pos]
    rw [ih (j + 1) _ (by simpa using hp) (fun x hx => hall x (by simp [hx]))]
    simp [List.range'_succ, List.append_assoc]

/-- Normal form of the component loop when `fc` is the first failing
component (all of `pre` succeed, `fc.setup()` returns false): the loop
stops at `fc`, runs the Fault Audit, logs "Tearing down partial setup",
invokes `Scenario.teardown` with the failing index `j + pre.length`, and
reports overall failure. -/
theorem Scenario.setupGo_fail (env : ScenEnv) :
    ∀ (pre : List ScenarioComponent) (fc : ScenarioComponent)
      (post : List ScenarioComponent) (j : Nat) (st : ScenState),
      st.pending = [] → (∀ x ∈ pre, x.setupOk = true) → fc.setupOk = false →
      Scenario.setupGo env (pre ++ fc :: post) j st = .ok (false,
        { st with pending := [],
                  trace := st.trace ++ ((List.range' j (pre.length + 1)).map Event.compSetup
                    ++ ((auditTraceEvents env
                        ++ (if st.hasBadNews then [Event.watchEnd] else []))
                      ++ ([Event.logTearingDown]
                        ++ ((teardownIdxList (some (j + pre.length))
                              env.components.length).map Event.compTeardown
                          ++ (auditTraceEvents env
                            ++ (if st.hasBadNews then [Event.watchEnd] else [])
                            ++ [Event.uninstall]))))) }) := by
  intro pre
  induction pre with
  | nil =>
    intro fc post j st hp _ hfc
    simp only [List.nil_append, Scenario.setupGo, hfc]
    rw [if_neg (by simp)]
    rw [Scenario.audit_nil env [] _ (by simpa using hp)]
    dsimp only
    rw [Scenario.teardown_nil env _ _ (by simp)]
    dsimp only
    simp [List.range'_one, List.append_assoc]
  | cons c pre ih =>
    intro fc post j st hp hall hfc
    have hc : c.setupOk = true := hall c (by simp)
    simp only [List.cons_append, Scenario.setupGo, List.append_eq]
    rw [if_pos hc]
    rw [ih fc post (j + 1) _ (by simpa using hp) (fun x hx => hall x (by simp [hx])) hfc]
    have harith : j + 1 + pre.length = j + (pre.length + 1) := by omega
    simp [List.range'_succ, List.append_assoc, harith]

/-- `Scenario.setup` with an empty BadNews queue reduces to the component
loop, run on the state after the prelude (prepare, audit, node wait,
audit, support install, watcher arm — from which point `self._bad_news`
is set). -/
theorem Scenario.setup_nil (env : ScenEnv) (st : ScenState) (hp : st.pending = []) :
    Scenario.setup env st = Scenario.setupGo env env.components 0
      { stats := st.stats, pending := [], hasBadNews := true,
        trace := st.trace
          ++ ([Event.prepare]
            ++ ((auditTraceEvents env ++ (if st.hasBadNews then [Event.watchEnd] else []))
              ++ ([Event.waitAllNodes]
                ++ ((auditTraceEvents env ++ (if st.hasBadNews then [Event.watchEnd] else []))
                  ++ [Event.installSupport, Event.setWatch])))) } := by
  rw [Scenario.setup]
  rw [Scenario.audit_nil env [] _ (by simpa using hp)]
  dsimp only
  rw [Scenario.audit_nil env [] _ (by simp)]
  dsimp only
  simp [List.append_assoc]

theorem teardownIdxList_pos (n len : Nat) (h : 1 ≤ n) :
    teardownIdxList (some n) len = (List.range (n + 1)).reverse := by
  cases n with
  | zero => omega
  | succ k =>
    show countdown (k + 1) = _
    exact countdown_eq (k + 1)

theorem teardownIdxList_zero (len : Nat) :
    teardownIdxList (some 0) len = (List.range len).reverse := by
  show countdownFrom len = _
  exact countdownFrom_eq len

theorem setupIdxs_if_watchEnd (b : Bool) :
    setupIdxs (if b then [Event.watchEnd] else []) = [] := by cases b <;> rfl

theorem teardownIdxs_if_watchEnd (b : Bool) :
    teardownIdxs (if b then [Event.watchEnd] else []) = [] := by cases b <;> rfl

theorem setupIdxs_cons (e : Event) (tr : List Event) :
    setupIdxs (e :: tr)
      = (match e with | Event.compSetup i => [i] | _ => []) ++ setupIdxs tr := by
  cases e <;> simp [setupIdxs]

theorem teardownIdxs_cons (e : Event) (tr : List Event) :
    teardownIdxs (e :: tr)
      = (match e with | Event.compTeardown i => [i] | _ => []) ++ teardownIdxs tr := by
  cases e <;> simp [teardownIdxs]

theorem setupIdxs_nil : setupIdxs [] = [] := rfl

theorem teardownIdxs_nil : teardownIdxs [] = [] := rfl

theorem teardownIdxs_reverse (tr : List Event) :
    teardownIdxs tr.reverse = (teardownIdxs tr).reverse := by
  induction tr with
  | nil => rfl
  | cons e tr ih =>
    rw [List.reverse_cons, teardownIdxs_append, teardownIdxs_cons, ih]
    cases e <;> simp [teardownIdxs]

/-- C2 (corrected).  When the component at index `j = pre.length` is the
first whose `setup()` returns false, `Scenario.setup` stops iterating (no
later component's setup runs), runs the Fault Audit, logs "Tearing down
partial setup" and returns false — but the teardown it invokes is
`teardown(j)` with the FAILING index: for `j >= 1` it tears down indices
`j, j-1, ..., 0`, i.e. the succeeded prefix PLUS the failing component
(which is exactly the reverse of the indices whose `setup()` ran), and
for `j = 0` the argument `0` is falsy, so ALL components `len-1 .. 0` are
torn down, not the empty succeeded prefix. -/
theorem Scenario.setup_failure_unwind (env : ScenEnv) (st : ScenState)
    (pre : List ScenarioComponent) (fc : ScenarioComponent) (post : List ScenarioComponent)
    (hcomp : env.components = pre ++ fc :: post)
    (hp : st.pending = []) (hpre : ∀ x ∈ pre, x.setupOk = true) (hfc : fc.setupOk = false) :
    ∃ st', Scenario.setup env st = .ok (false, st') ∧
      setupIdxs st'.trace = setupIdxs st.trace ++ List.range (pre.length + 1) ∧
      teardownIdxs st'.trace = teardownIdxs st.trace
        ++ teardownIdxList (some pre.length) env.components.length ∧
      Event.logTearingDown ∈ st'.trace ∧
      Event.watchEnd ∈ st'.trace ∧
      (1 ≤ pre.length → teardownIdxs st'.trace
        = teardownIdxs st.trace ++ (List.range (pre.length + 1)).reverse) ∧
      (pre.length = 0 → teardownIdxs st'.trace
        = teardownIdxs st.trace ++ (List.range env.components.length).reverse) := by
  rw [Scenario.setup_nil env st hp, hcomp]
  rw [Scenario.setupGo_fail env pre fc post 0 _ rfl hpre hfc]
  refine ⟨_, rfl, ?_, ?_, ?_, ?_, ?_, ?_⟩
  · simp [setupIdxs_append, setupIdxs_cons, setupIdxs_auditTrace, setupIdxs_if_watchEnd,
      setupIdxs_compSetup, setupIdxs_compTeardown, List.range_eq_range', setupIdxs_nil]
  · simp [teardownIdxs_append, teardownIdxs_cons, teardownIdxs_auditTrace,
      teardownIdxs_if_watchEnd, teardownIdxs_compSetup, teardownIdxs_compTeardown, hcomp,
      teardownIdxs_nil]
  · simp
  · simp
  · intro hlen
    simp [teardownIdxs_append, teardownIdxs_cons, teardownIdxs_auditTrace,
      teardownIdxs_if_watchEnd, teardownIdxs_compSetup, teardownIdxs_compTeardown,
      teardownIdxList_pos _ _ hlen, teardownIdxs_nil, teardownIdxs_reverse]
  · intro hlen
    simp [teardownIdxs_append, teardownIdxs_cons, teardownIdxs_auditTrace,
      teardownIdxs_if_watchEnd, teardownIdxs_compSetup, teardownIdxs_compTeardown,
      hcomp, hlen, teardownIdxList_zero, teardownIdxs_nil, teardownIdxs_reverse]

/-- C2 counterexample.  With components `[ok, failing, ok]` — first setup
failure at index `j = 1` — `Scenario.setup` tears down indices `[1, 0]`:
the component whose setup FAILED is torn down too, so the torn-down set is
not the succeeded prefix `[0]` that the claim asserts. -/
theorem Scenario.setup_failure_unwind_cex :
    ∃ st', Scenario.setup
        { components := [⟨true, true⟩, ⟨false, true⟩, ⟨true, true⟩], audits := [],
          cmIgnore := [], instIgnore := [], contOnFail := false }
        { stats := initStats, pending := [], hasBadNews := false, trace := [] }
      = .ok (false, st') ∧
      setupIdxs st'.trace = [0, 1] ∧
      teardownIdxs st'.trace = [1, 0] ∧ ([1, 0] : List Nat) ≠ [0] := by
  rw [Scenario.setup_nil _ _ rfl]
  have hc : ScenEnv.components
      { components := [⟨true, true⟩, ⟨false, true⟩, ⟨true, true⟩], audits := [],
        cmIgnore := [], instIgnore := [], contOnFail := false }
      = [(⟨true, true⟩ : ScenarioComponent)]
        ++ (⟨false, true⟩ : ScenarioComponent) :: [(⟨true, true⟩ : ScenarioComponent)] := rfl
  rw [hc]
  rw [Scenario.setupGo_fail _ _ _ _ _ _ rfl (by decide) rfl]
  exact ⟨_, rfl, by decide, by decide, by decide⟩

/-- Witness for the corrected C2 theorem at components `[ok, fail, ok]`. -/
theorem Scenario.setup_failure_unwind_w :
    ∃ st', Scenario.setup
        { components := [⟨true, true⟩, ⟨false, true⟩, ⟨true, true⟩], audits := [],
          cmIgnore := [], instIgnore := [], contOnFail := false }
        { stats := initStats, pending := [], hasBadNews := false, trace := [] }
      = .ok (false, st') ∧
      setupIdxs st'.trace = setupIdxs [] ++ List.range 2 ∧
      teardownIdxs st'.trace = teardownIdxs [] ++ teardownIdxList (some 1) 3 ∧
      Event.logTearingDown ∈ st'.trace ∧
      Event.watchEnd ∈ st'.trace ∧
      (1 ≤ 1 → teardownIdxs st'.trace = teardownIdxs [] ++ (List.range 2).reverse) ∧
      ((1 : Nat) = 0 → teardownIdxs st'.trace = teardownIdxs [] ++ (List.range 3).reverse) :=
  Scenario.setup_failure_unwind
    { components := [⟨true, true⟩, ⟨false, true⟩, ⟨true, true⟩], audits := [],
      cmIgnore := [], instIgnore := [], contOnFail := false }
    { stats := initStats, pending := [], hasBadNews := false, trace := [] }
    [⟨true, true⟩] ⟨false, true⟩ [⟨true, true⟩] rfl rfl (by decide) rfl

/-- C9 (confirmed).  `Scenario.teardown(0)` behaves identically to
`teardown()` with no argument: Python's `if not n_components:` treats the
explicit argument `0` as absent, so ALL components (indices `len-1` down
to `0`) are torn down.  Consequently, when the FIRST component's `setup()`
fails (failing index `j = 0`), `Scenario.setup` invokes `teardown(0)` and
every component in the list — including components whose setup never ran
— has its `teardown()` called. -/
theorem Scenario.teardown_zero_is_full (env : ScenEnv) (st : ScenState) :
    Scenario.teardown env (some 0) st = Scenario.teardown env none st ∧
    (∀ (fc : ScenarioComponent) (rest : List ScenarioComponent),
      env.components = fc :: rest → fc.setupOk = false → st.pending = [] →
      ∃ st', Scenario.setup env st = .ok (false, st') ∧
        setupIdxs st'.trace = setupIdxs st.trace ++ [0] ∧
        teardownIdxs st'.trace
          = teardownIdxs st.trace ++ (List.range env.components.length).reverse) := by
  constructor
  · rw [Scenario.teardown, Scenario.teardown]
    rfl
  · intro fc rest hcomp hfc hp
    rw [Scenario.setup_nil env st hp, hcomp]
    rw [show fc :: rest = [] ++ fc :: rest from rfl]
    rw [Scenario.setupGo_fail env [] fc rest 0 _ rfl (by simp) hfc]
    refine ⟨_, rfl, ?_, ?_⟩
    · simp [setupIdxs_append, setupIdxs_cons, setupIdxs_auditTrace, setupIdxs_if_watchEnd,
        setupIdxs_compSetup, setupIdxs_compTeardown, setupIdxs_nil, List.range'_one]
    · simp [teardownIdxs_append, teardownIdxs_cons, teardownIdxs_auditTrace,
        teardownIdxs_if_watchEnd, teardownIdxs_compSetup, teardownIdxs_compTeardown,
        teardownIdxs_nil, teardownIdxs_reverse, hcomp, teardownIdxList_zero]

/-- Witness for C9: a two-component Scenario whose first component fails
setup tears down both components, indices `[1, 0]`. -/
theorem Scenario.teardown_zero_is_full_w :
    Scenario.teardown
        { components := [⟨false, true⟩, ⟨true, true⟩], audits := [],
          cmIgnore := [], instIgnore := [], contOnFail := false }
        (some 0) { stats := initStats, pending := [], hasBadNews := false, trace := [] }
      = Scenario.teardown
        { components := [⟨false, true⟩, ⟨true, true⟩], audits := [],
          cmIgnore := [], instIgnore := [], contOnFail := false }
        none { stats := initStats, pending := [], hasBadNews := false, trace := [] } ∧
    ∃ st', Scenario.setup
        { components := [⟨false, true⟩, ⟨true, true⟩], audits := [],
          cmIgnore := [], instIgnore := [], contOnFail := false }
        { stats := initStats, pending := [], hasBadNews := false, trace := [] }
      = .ok (false, st') ∧
      setupIdxs st'.trace = setupIdxs [] ++ [0] ∧
      teardownIdxs st'.trace = teardownIdxs [] ++ (List.range 2).reverse := by
  have h := Scenario.teardown_zero_is_full
    { components := [⟨false, true⟩, ⟨true, true⟩], audits := [],
      cmIgnore := [], instIgnore := [], contOnFail := false }
    { stats := initStats, pending := [], hasBadNews := false, trace := [] }
  exact ⟨h.1, h.2 ⟨false, true⟩ [⟨true, true⟩] rfl rfl rfl⟩

/-- C5 counterexample.  A component teardown failure is NOT logged: with an
empty BadNews queue, `Scenario.teardown` produces literally the same
result — same trace, no extra log line — whether the junior component's
`teardown()` fails or succeeds (the boolean is discarded unread), so the
claimed failure logging does not happen. -/
theorem Scenario.teardown_failure_not_logged_cex :
    Scenario.teardown
        { components := [⟨true, true⟩, ⟨true, false⟩], audits := [], cmIgnore := [],
          instIgnore := [], contOnFail := false } none
        { stats := initStats, pending := [], hasBadNews := true, trace := [] }
      = Scenario.teardown
        { components := [⟨true, true⟩, ⟨true, true⟩], audits := [], cmIgnore := [],
          instIgnore := [], contOnFail := false } none
        { stats := initStats, pending := [], hasBadNews := true, trace := [] } ∧
    Scenario.teardown
        { components := [⟨true, true⟩, ⟨true, false⟩], audits := [], cmIgnore := [],
          instIgnore := [], contOnFail := false } none
        { stats := initStats, pending := [], hasBadNews := true, trace := [] }
      = .ok { stats := initStats, pending := [], hasBadNews := true,
              trace := [Event.compTeardown 1, Event.compTeardown 0, Event.watchEnd,
                        Event.uninstall] } := by
  constructor
  · rw [Scenario.teardown_nil _ _ _ rfl, Scenario.teardown_nil _ _ _ rfl]
    rfl
  · rw [Scenario.teardown_nil _ _ _ rfl]
    rfl

/-- C5 (corrected).  A component's teardown failure is ignored rather than
logged: `Scenario.teardown` never reads the boolean a component's
`teardown()` returns, so its entire outcome is independent of which
components fail (first conjunct, for any two component lists of equal
length); the unwind walks every selected index, and the Fault Audit and
support uninstall still run, the call returning normally — never raising
— whenever the audit drain finds no runaway (here: an empty queue). -/
theorem Scenario.teardown_continues_on_failure (env env2 : ScenEnv) (n : Option Nat)
    (st : ScenState) (hp : st.pending = [])
    (hlen : env2.components.length = env.components.length)
    (haud : env2.audits = env.audits) :
    Scenario.teardown env2 n st = Scenario.teardown env n st ∧
    ∃ st', Scenario.teardown env n st = .ok st' ∧
      teardownIdxs st'.trace = teardownIdxs st.trace
        ++ teardownIdxList n env.components.length ∧
      Event.uninstall ∈ st'.trace ∧
      (st.hasBadNews = true → Event.watchEnd ∈ st'.trace) := by
  constructor
  · rw [Scenario.teardown_nil _ _ _ hp, Scenario.teardown_nil _ _ _ hp]
    simp only [auditTraceEvents, haud, hlen]
  · rw [Scenario.teardown_nil _ _ _ hp]
    refine ⟨_, rfl, ?_, ?_, ?_⟩
    · simp [teardownIdxs_append, teardownIdxs_cons, teardownIdxs_auditTrace,
        teardownIdxs_if_watchEnd, teardownIdxs_compTeardown, teardownIdxs_nil]
    · simp
    · intro hb
      simp [hb]

/-- Witness for the corrected C5 theorem: both components' teardowns fail,
yet the unwind visits indices `[1, 0]`, audits and uninstalls. -/
theorem Scenario.teardown_continues_on_failure_w :
    Scenario.teardown
        { components := [⟨true, false⟩, ⟨true, false⟩], audits := [], cmIgnore := [],
          instIgnore := [], contOnFail := false } none
        { stats := initStats, pending := [], hasBadNews := true, trace := [] }
      = Scenario.teardown
        { components := [⟨true, true⟩, ⟨true, true⟩], audits := [], cmIgnore := [],
          instIgnore := [], contOnFail := false } none
        { stats := initStats, pending := [], hasBadNews := true, trace := [] } ∧
    ∃ st', Scenario.teardown
        { components := [⟨true, true⟩, ⟨true, true⟩], audits := [], cmIgnore := [],
          instIgnore := [], contOnFail := false } none
        { stats := initStats, pending := [], hasBadNews := true, trace := [] }
      = .ok st' ∧
      teardownIdxs st'.trace = teardownIdxs [] ++ teardownIdxList none 2 ∧
      Event.uninstall ∈ st'.trace ∧
      (true = true → Event.watchEnd ∈ st'.trace) :=
  Scenario.teardown_continues_on_failure
    { components := [⟨true, true⟩, ⟨true, true⟩], audits := [], cmIgnore := [],
      instIgnore := [], contOnFail := false }
    { components := [⟨true, false⟩, ⟨true, false⟩], audits := [], cmIgnore := [],
      instIgnore := [], contOnFail := false }
    none { stats := initStats, pending := [], hasBadNews := true, trace := [] }
    rfl rfl rfl

theorem drainOf_fields (env : ScenEnv) (lig : List Pat) (st1 st2 : ScenState)
    (hpend : st1.pending = st2.pending) (hb : st1.hasBadNews = st2.hasBadNews) :
    drainOf env lig st1 = drainOf env lig st2 := by
  simp [drainOf, hpend, hb]

/-- The audit that `run_test` performs after the test sees the same queue
and watcher flag as the incoming state (only statistics and trace were
touched), so a no-runaway drain on the incoming state means the audit
returns normally. -/
theorem Scenario.audit_ok_update (env : ScenEnv) (lig : List Pat) (st : ScenState)
    (s : Stats) (tr : List Event)
    (hA : (drainOf env lig st).runaway = false) :
    Scenario.audit env lig { st with stats := s, trace := tr }
      = .ok (failedCount env, auditOkState env lig { st with stats := s, trace := tr }) := by
  apply Scenario.audit_ok
  rw [drainOf_fields env lig { st with stats := s, trace := tr } st rfl rfl, hA]
  rfl

/-- C10 (confirmed).  When `test.teardown(node)` fails and the "continue on
failure" policy is disabled, `run_test` raises before any statistics
bookkeeping: the Scenario's statistics mapping and BadNews queue are
untouched, the test's `elapsed_time`/`min_time`/`max_time` entries are not
updated, and the post-test Fault Audit never runs (no audit events are
added to the trace). -/
theorem Scenario.run_test_fatal_teardown_atomic (env : ScenEnv) (t : CTSTest)
    (node : String) (tc : Nat) (times : RunTimes) (st : ScenState) (ts : TStats)
    (htd : t.teardownOk = false) (hcont : env.contOnFail = false) :
    ∃ stE tsE, Scenario.run_test env t node tc times st ts
        = .error ("Teardown of " ++ t.name ++ " on " ++ node ++ " failed", stE, tsE) ∧
      stE.stats = st.stats ∧ stE.pending = st.pending ∧
      tsE.hasTimes = ts.hasTimes ∧ tsE.elapsed_time = ts.elapsed_time ∧
      tsE.min_time = ts.min_time ∧ tsE.max_time = ts.max_time ∧
      auditEvCount stE.trace = auditEvCount st.trace := by
  rcases hsu : t.setupOk with _ | _ <;> rcases hcr : t.canRunNow with _ | _ <;>
    simp [Scenario.run_test, htd, hcont, hsu, hcr, auditEvCount] <;>
    exact ⟨_, _, ⟨rfl, rfl⟩, rfl, rfl, rfl, rfl, rfl, rfl, by simp [List.countP_append]⟩

/-- Witness for C10 at a concrete failing-teardown test. -/
theorem Scenario.run_test_fatal_teardown_atomic_w :
    ∃ stE tsE, Scenario.run_test
        { components := [], audits := [], cmIgnore := [], instIgnore := [],
          contOnFail := false }
        { name := "t1", setupOk := true, canRunNow := true, invokeOk := true,
          teardownOk := false, errorsToIgnore := [] }
        "node1" 1 { starttime := 0, stoptime := 7, timerv := 2 }
        { stats := initStats, pending := [], hasBadNews := true, trace := [] }
        { hasTimes := false, elapsed_time := 0, min_time := 0, max_time := 0, skipped := 0 }
        = .error ("Teardown of " ++ "t1" ++ " on " ++ "node1" ++ " failed", stE, tsE) ∧
      stE.stats = initStats ∧ stE.pending = [] ∧
      tsE.hasTimes = false ∧ tsE.elapsed_time = 0 ∧
      tsE.min_time = 0 ∧ tsE.max_time = 0 ∧
      auditEvCount stE.trace = auditEvCount [] :=
  Scenario.run_test_fatal_teardown_atomic
    { components := [], audits := [], cmIgnore := [], instIgnore := [],
      contOnFail := false }
    { name := "t1", setupOk := true, canRunNow := true, invokeOk := true,
      teardownOk := false, errorsToIgnore := [] }
    "node1" 1 { starttime := 0, stoptime := 7, timerv := 2 }
    { stats := initStats, pending := [], hasBadNews := true, trace := [] }
    { hasTimes := false, elapsed_time := 0, min_time := 0, max_time := 0, skipped := 0 }
    rfl rfl

/-- C1 counterexample.  A skipped test (setup succeeds, `can_run_now`
false, teardown succeeds) DOES increment the Scenario's "success"
counter: `ret` is initialised True and the skip branch leaves it True, so
the `if ret:` success bookkeeping runs.  Here "success" goes from 0 to 1
even though `did_run = false`, contradicting the claim that neither
"success" nor "failure" is incremented. -/
theorem Scenario.run_test_skip_cex :
    ∃ st' ts', Scenario.run_test
        { components := [], audits := [], cmIgnore := [], instIgnore := [],
          contOnFail := false }
        { name := "t1", setupOk := true, canRunNow := false, invokeOk := true,
          teardownOk := true, errorsToIgnore := [] }
        "node1" 1 { starttime := 0, stoptime := 7, timerv := 2 }
        { stats := initStats, pending := [], hasBadNews := true, trace := [] }
        { hasTimes := false, elapsed_time := 0, min_time := 0, max_time := 0, skipped := 0 }
      = .ok (false, st', ts') ∧
      st'.stats "success" = 1 ∧ initStats "success" = 0 ∧ ts'.skipped = 1 := by
  simp only [Scenario.run_test]
  rw [Scenario.audit_nil _ _ _ rfl]
  exact ⟨_, _, rfl, by decide, rfl, rfl⟩

/-- C1 (corrected).  For a test whose `setup(node)` succeeds, whose
`can_run_now(node)` returns false and whose `teardown(node)` succeeds
(with the post-test audit drain finding no runaway), `run_test` increments
the Scenario's "success" counter — `ret` is still True on the skip path —
while "failure" and the Scenario-level "skipped" counters are unchanged,
the test's own `skipped` counter is incremented, and `did_run = false` is
returned; moreover among all completing `run_test` calls, `did_run` is
false exactly in that skip-with-clean-teardown case. -/
theorem Scenario.run_test_skip_spec (env : ScenEnv) (t : CTSTest) (node : String)
    (tc : Nat) (times : RunTimes) (st : ScenState) (ts : TStats)
    (hA : (drainOf env t.errorsToIgnore st).runaway = false) :
    ((t.setupOk = true ∧ t.canRunNow = false ∧ t.teardownOk = true) →
      ∃ st' ts', Scenario.run_test env t node tc times st ts = .ok (false, st', ts') ∧
        st'.stats "success" = st.stats "success" + 1 ∧
        st'.stats "failure" = st.stats "failure" ∧
        st'.stats "skipped" = st.stats "skipped" ∧
        ts'.skipped = ts.skipped + 1) ∧
    (∀ (d : Bool) (st' : ScenState) (ts' : TStats),
      Scenario.run_test env t node tc times st ts = .ok (d, st', ts') →
      (d = false ↔ (t.setupOk = true ∧ t.canRunNow = false ∧ t.teardownOk = true))) := by
  constructor
  · rintro ⟨hsu, hcr, htd⟩
    simp only [Scenario.run_test, hsu, hcr, htd, Bool.not_true, Bool.not_false,
      Bool.false_and, Bool.true_and, Bool.false_eq_true, eq_self_iff_true,
      if_true, if_false]
    rw [Scenario.audit_ok_update env t.errorsToIgnore st _ _ hA]
    dsimp only
    refine ⟨_, _, rfl, ?_, ?_, ?_, by rcases ts.hasTimes with _ | _ <;> simp⟩
    · simp [auditOkState, auditPreState, badNewsFold_other, Stats.incr_same]
    · simp [auditOkState, auditPreState, badNewsFold_other, Stats.incr_other]
    · simp [auditOkState, auditPreState, badNewsFold_other, Stats.incr_other]
  · intro d st' ts' hrun
    rcases hsu : t.setupOk with _ | _ <;> rcases hcr : t.canRunNow with _ | _ <;>
      rcases htd : t.teardownOk with _ | _ <;> rcases hco : env.contOnFail with _ | _ <;>
      rcases hin : t.invokeOk with _ | _ <;>
      simp only [Scenario.run_test, hsu, hcr, htd, hco, Bool.not_true, Bool.not_false,
        Bool.false_and, Bool.true_and, Bool.false_eq_true, eq_self_iff_true,
        if_true, if_false, hin] at hrun <;>
      first
        | exact Except.noConfusion hrun
        | (rw [Scenario.audit_ok_update env t.errorsToIgnore st _ _ hA] at hrun
           simp only [Except.ok.injEq, Prod.mk.injEq] at hrun
           obtain ⟨hd, -, -⟩ := hrun
           subst hd
           simp [hsu, hcr, htd])

/-- Witness for the corrected C1 theorem at a concrete skipped test. -/
theorem Scenario.run_test_skip_spec_w :
    (((⟨"t1", true, false, true, true, []⟩ : CTSTest).setupOk = true ∧
      (⟨"t1", true, false, true, true, []⟩ : CTSTest).canRunNow = false ∧
      (⟨"t1", true, false, true, true, []⟩ : CTSTest).teardownOk = true) →
      ∃ st' ts', Scenario.run_test
          { components := [], audits := [], cmIgnore := [], instIgnore := [],
            contOnFail := false }
          ⟨"t1", true, false, true, true, []⟩ "node1" 1
          { starttime := 0, stoptime := 7, timerv := 2 }
          { stats := initStats, pending := [], hasBadNews := true, trace := [] }
          { hasTimes := false, elapsed_time := 0, min_time := 0, max_time := 0, skipped := 0 }
        = .ok (false, st', ts') ∧
        st'.stats "success" = initStats "success" + 1 ∧
        st'.stats "failure" = initStats "failure" ∧
        st'.stats "skipped" = initStats "skipped" ∧
        ts'.skipped = 0 + 1) ∧
    (∀ (d : Bool) (st' : ScenState) (ts' : TStats),
      Scenario.run_test
          { components := [], audits := [], cmIgnore := [], instIgnore := [],
            contOnFail := false }
          ⟨"t1", true, false, true, true, []⟩ "node1" 1
          { starttime := 0, stoptime := 7, timerv := 2 }
          { stats := initStats, pending := [], hasBadNews := true, trace := [] }
          { hasTimes := false, elapsed_time := 0, min_time := 0, max_time := 0, skipped := 0 }
        = .ok (d, st', ts') →
      (d = false ↔ ((⟨"t1", true, false, true, true, []⟩ : CTSTest).setupOk = true ∧
        (⟨"t1", true, false, true, true, []⟩ : CTSTest).canRunNow = false ∧
        (⟨"t1", true, false, true, true, []⟩ : CTSTest).teardownOk = true))) :=
  Scenario.run_test_skip_spec
    { components := [], audits := [], cmIgnore := [], instIgnore := [],
      contOnFail := false }
    ⟨"t1", true, false, true, true, []⟩ "node1" 1
    { starttime := 0, stoptime := 7, timerv := 2 }
    { stats := initStats, pending := [], hasBadNews := true, trace := [] }
    { hasTimes := false, elapsed_time := 0, min_time := 0, max_time := 0, skipped := 0 }
    rfl

theorem count_testTeardown_auditTrace (env : ScenEnv) (node : String) :
    (auditTraceEvents env).count (Event.testTeardown node) = 0 := by
  rw [List.count_eq_zero]
  simp only [auditTraceEvents, List.mem_map]
  rintro ⟨a, -, ha⟩
  rcases h : a.result with _ | _ <;> simp [h] at ha

theorem count_testTeardown_badNews (l : List String) (node : String) :
    (l.map Event.logBadNews).count (Event.testTeardown node) = 0 := by
  rw [List.count_eq_zero]
  simp

theorem count_testTeardown_if_watchEnd (b : Bool) (node : String) :
    (if b then [Event.watchEnd] else []).count (Event.testTeardown node) = 0 := by
  rcases b with _ | _ <;> simp

/-- Normal form of the state an audit call returns, for a state that only
changed statistics and trace relative to `st`, under a no-runaway drain. -/
theorem auditOkState_update (env : ScenEnv) (lig : List Pat) (st : ScenState)
    (s : Stats) (tr : List Event) (hA : (drainOf env lig st).runaway = false) :
    auditOkState env lig { st with stats := s, trace := tr }
      = { st with
          stats := (drainOf env lig st).bad.foldl (fun a _ => a.incr "BadNews") s,
          pending := (drainOf env lig st).remaining,
          trace := tr ++ auditTraceEvents env
            ++ (drainOf env lig st).bad.map Event.logBadNews
            ++ (if st.hasBadNews then [Event.watchEnd] else []) } := by
  have hd : drainOf env lig { st with stats := s, trace := tr } = drainOf env lig st :=
    drainOf_fields _ _ _ _ rfl rfl
  simp [auditOkState, auditPreState, hd, hA]

/-- C6 (confirmed).  `test.teardown(node)` is always called regardless of
the prior setup/skip/execute outcome: every `run_test` call — returning or
raising — records exactly one `testTeardown node` event beyond the
incoming trace.  If the teardown fails while the "continue on failure"
policy is off, `run_test` raises `ValueError` with a message naming the
test and the node; if the policy is on, the failure becomes an additional
failure outcome ("failure" is incremented, `did_run` is forced true) and
execution continues through the post-test audit to a normal return. -/
theorem Scenario.run_test_teardown_always (env : ScenEnv) (t : CTSTest) (node : String)
    (tc : Nat) (times : RunTimes) (st : ScenState) (ts : TStats)
    (hA : (drainOf env t.errorsToIgnore st).runaway = false) :
    (match Scenario.run_test env t node tc times st ts with
      | .ok (_, st', _) => st'.trace.count (Event.testTeardown node)
      | .error (_, st', _) => st'.trace.count (Event.testTeardown node))
      = st.trace.count (Event.testTeardown node) + 1 ∧
    (t.teardownOk = false → env.contOnFail = false →
      ∃ st' ts', Scenario.run_test env t node tc times st ts
        = .error ("Teardown of " ++ t.name ++ " on " ++ node ++ " failed", st', ts')) ∧
    (t.teardownOk = false → env.contOnFail = true →
      ∃ st' ts', Scenario.run_test env t node tc times st ts = .ok (true, st', ts') ∧
        st'.stats "failure" = st.stats "failure" + 1 ∧
        st'.stats "success" = st.stats "success") := by
  refine ⟨?_, ?_, ?_⟩
  · rcases hsu : t.setupOk with _ | _ <;> rcases hcr : t.canRunNow with _ | _ <;>
      rcases htd : t.teardownOk with _ | _ <;> rcases hco : env.contOnFail with _ | _ <;>
      rcases hin : t.invokeOk with _ | _ <;>
      simp only [Scenario.run_test, hsu, hcr, htd, hco, hin, Bool.not_true, Bool.not_false,
        Bool.false_and, Bool.true_and, Bool.false_eq_true, eq_self_iff_true,
        if_true, if_false] <;>
      first
        | (rw [Scenario.audit_ok_update env t.errorsToIgnore st _ _ hA,
             auditOkState_update env t.errorsToIgnore st _ _ hA]
           simp [List.count_append, List.count_cons, count_testTeardown_auditTrace,
             count_testTeardown_badNews, count_testTeardown_if_watchEnd])
        | simp [List.count_append, List.count_cons]
  · intro htd hco
    rcases hsu : t.setupOk with _ | _ <;> rcases hcr : t.canRunNow with _ | _ <;>
      simp only [Scenario.run_test, hsu, hcr, htd, hco, Bool.not_true, Bool.not_false,
        Bool.false_and, Bool.true_and, Bool.true_and, Bool.and_self, Bool.false_eq_true,
        eq_self_iff_true, if_true, if_false] <;>
      exact ⟨_, _, rfl⟩
  · intro htd hco
    rcases hsu : t.setupOk with _ | _ <;> rcases hcr : t.canRunNow with _ | _ <;>
      simp only [Scenario.run_test, hsu, hcr, htd, hco, Bool.not_true, Bool.not_false,
        Bool.false_and, Bool.true_and, Bool.and_false, Bool.and_self, Bool.false_eq_true,
        Bool.true_eq_false, eq_self_iff_true, if_true, if_false] <;>
      (rw [Scenario.audit_ok_update env t.errorsToIgnore st _ _ hA]
       refine ⟨_, _, rfl, ?_, ?_⟩ <;>
         simp [auditOkState, auditPreState, badNewsFold_other, Stats.incr_same,
           Stats.incr_other])

/-- Witness for C6 at a concrete failing-teardown test with the "continue
on failure" policy enabled. -/
theorem Scenario.run_test_teardown_always_w :
    (match Scenario.run_test
        { components := [], audits := [], cmIgnore := [], instIgnore := [],
          contOnFail := true }
        ⟨"t1", true, true, true, false, []⟩ "node1" 1
        { starttime := 0, stoptime := 7, timerv := 2 }
        { stats := initStats, pending := [], hasBadNews := true, trace := [] }
        { hasTimes := false, elapsed_time := 0, min_time := 0, max_time := 0, skipped := 0 } with
      | .ok (_, st', _) => st'.trace.count (Event.testTeardown "node1")
      | .error (_, st', _) => st'.trace.count (Event.testTeardown "node1"))
      = List.count (Event.testTeardown "node1") [] + 1 ∧
    ((⟨"t1", true, true, true, false, []⟩ : CTSTest).teardownOk = false →
      (true : Bool) = false →
      ∃ st' ts', Scenario.run_test
        { components := [], audits := [], cmIgnore := [], instIgnore := [],
          contOnFail := true }
        ⟨"t1", true, true, true, false, []⟩ "node1" 1
        { starttime := 0, stoptime := 7, timerv := 2 }
        { stats := initStats, pending := [], hasBadNews := true, trace := [] }
        { hasTimes := false, elapsed_time := 0, min_time := 0, max_time := 0, skipped := 0 }
        = .error ("Teardown of " ++ "t1" ++ " on " ++ "node1" ++ " failed", st', ts')) ∧
    ((⟨"t1", true, true, true, false, []⟩ : CTSTest).teardownOk = false →
      (true : Bool) = true →
      ∃ st' ts', Scenario.run_test
        { components := [], audits := [], cmIgnore := [], instIgnore := [],
          contOnFail := true }
        ⟨"t1", true, true, true, false, []⟩ "node1" 1
        { starttime := 0, stoptime := 7, timerv := 2 }
        { stats := initStats, pending := [], hasBadNews := true, trace := [] }
        { hasTimes := false, elapsed_time := 0, min_time := 0, max_time := 0, skipped := 0 }
        = .ok (true, st', ts') ∧
        st'.stats "failure" = initStats "failure" + 1 ∧
        st'.stats "success" = initStats "success") :=
  Scenario.run_test_teardown_always
    { components := [], audits := [], cmIgnore := [], instIgnore := [],
      contOnFail := true }
    ⟨"t1", true, true, true, false, []⟩ "node1" 1
    { starttime := 0, stoptime := 7, timerv := 2 }
    { stats := initStats, pending := [], hasBadNews := true, trace := [] }
    { hasTimes := false, elapsed_time := 0, min_time := 0, max_time := 0, skipped := 0 }
    rfl

/-- C7 (confirmed).  For an audit call whose drain completes (no runaway):
a drained line matched by ANY pattern of the assembled ignore-list — e.g.
the fixed `"CTS:"` prefix pattern matching `"CTS: starting"` — is ignored
and does not change the "BadNews" statistic, while each line matching no
pattern increments "BadNews" by exactly 1 (the final count rises by the
number of unignored lines, and no other counter changes); the call's
return value is the count of registered Audit collaborators that returned
false, never including BadNews line counts. -/
theorem Scenario.audit_badNews_spec (env : ScenEnv) (lig : List Pat) (st : ScenState)
    (hb : st.hasBadNews = true)
    (hA : (drainGo (mkIgnorelist env lig) st.pending 0).runaway = false) :
    ∃ st', Scenario.audit env lig st = .ok (failedCount env, st') ∧
      failedCount env = (env.audits.filter (fun a => a.result = false)).length ∧
      st'.stats "BadNews" = st.stats "BadNews"
        + (st.pending.filter (fun l => !isIgnored (mkIgnorelist env lig) l)).length ∧
      (∀ k, k ≠ "BadNews" → st'.stats k = st.stats k) ∧
      isIgnored (mkIgnorelist env lig) "CTS: starting" = true := by
  have hdo : drainOf env lig st = drainGo (mkIgnorelist env lig) st.pending 0 := by
    simp [drainOf, hb]
  have hnr := drainGo_not_runaway (mkIgnorelist env lig) st.pending 0 hA
  rw [Scenario.audit_ok env lig st (by rw [hdo, hA]; rfl)]
  refine ⟨_, rfl, ?_, ?_, ?_, ?_⟩
  · simp [failedCount]
  · simp [auditOkState, auditPreState, hdo, hnr.1, badNewsFold_at]
  · intro k hk
    simp [auditOkState, auditPreState, hdo, badNewsFold_other _ _ _ hk]
  · simp only [isIgnored, mkIgnorelist, List.any_cons, Bool.or_eq_true]
    exact Or.inl (by decide)

/-- Witness for C7: one failing and one passing audit, a `"CTS: starting"`
line suppressed by the fixed pattern and an `"ERROR: disk full"` line
counted as BadNews. -/
theorem Scenario.audit_badNews_spec_w :
    ∃ st', Scenario.audit
        { components := [], audits := [⟨"a1", false⟩, ⟨"a2", true⟩], cmIgnore := [],
          instIgnore := [], contOnFail := false } []
        { stats := initStats, pending := ["CTS: starting", "ERROR: disk full"],
          hasBadNews := true, trace := [] }
      = .ok (failedCount
        { components := [], audits := [⟨"a1", false⟩, ⟨"a2", true⟩], cmIgnore := [],
          instIgnore := [], contOnFail := false }, st') ∧
      failedCount
        { components := [], audits := [⟨"a1", false⟩, ⟨"a2", true⟩], cmIgnore := [],
          instIgnore := [], contOnFail := false }
        = (([⟨"a1", false⟩, ⟨"a2", true⟩] : List ClusterAudit).filter
            (fun a => a.result = false)).length ∧
      st'.stats "BadNews" = initStats "BadNews"
        + ((["CTS: starting", "ERROR: disk full"] : List String).filter
            (fun l => !isIgnored (mkIgnorelist
              { components := [], audits := [⟨"a1", false⟩, ⟨"a2", true⟩], cmIgnore := [],
                instIgnore := [], contOnFail := false } []) l)).length ∧
      (∀ k, k ≠ "BadNews" → st'.stats k = initStats k) ∧
      isIgnored (mkIgnorelist
        { components := [], audits := [⟨"a1", false⟩, ⟨"a2", true⟩], cmIgnore := [],
          instIgnore := [], contOnFail := false } []) "CTS: starting" = true :=
  Scenario.audit_badNews_spec
    { components := [], audits := [⟨"a1", false⟩, ⟨"a2", true⟩], cmIgnore := [],
      instIgnore := [], contOnFail := false } []
    { stats := initStats, pending := ["CTS: starting", "ERROR: disk full"],
      hasBadNews := true, trace := [] }
    rfl (by decide)

theorem count_auditTrace_eq_zero (env : ScenEnv) (e : Event)
    (h1 : ∀ n, e ≠ Event.auditPassed n) (h2 : ∀ n, e ≠ Event.auditFailed n) :
    (auditTraceEvents env).count e = 0 := by
  rw [List.count_eq_zero]
  simp only [auditTraceEvents, List.mem_map]
  rintro ⟨a, -, ha⟩
  rcases h : a.result with _ | _
  · rw [h] at ha
    simp only [Bool.false_eq_true, if_false] at ha
    exact h2 a.name ha.symm
  · rw [h] at ha
    simp only [if_true] at ha
    exact h1 a.name ha.symm

theorem count_badNews_map_eq_zero (l : List String) (e : Event)
    (h : ∀ s, e ≠ Event.logBadNews s) : (l.map Event.logBadNews).count e = 0 := by
  rw [List.count_eq_zero]
  simp only [List.mem_map]
  rintro ⟨s, -, hs⟩
  exact h s hs.symm

theorem count_compTeardown_map_eq_zero (l : List Nat) (e : Event)
    (h : ∀ i, e ≠ Event.compTeardown i) : (l.map Event.compTeardown).count e = 0 := by
  rw [List.count_eq_zero]
  simp only [List.mem_map]
  rintro ⟨i, -, hi⟩
  exact h i hi.symm

/-- Unfolded form of the state a normally returning audit call produces:
drained queue, BadNews increments folded in, audit events, per-line
BadNews logs, the tolerated-runaway report and the watcher end. -/
theorem auditOkState_eq (env : ScenEnv) (lig : List Pat) (X : ScenState) :
    auditOkState env lig X
      = { X with
          stats := (drainOf env lig X).bad.foldl (fun a _ => a.incr "BadNews") X.stats,
          pending := (drainOf env lig X).remaining,
          trace := X.trace ++ (auditTraceEvents env
            ++ ((drainOf env lig X).bad.map Event.logBadNews
              ++ ((if (drainOf env lig X).runaway then [Event.printBigProblems] else [])
                ++ (if X.hasBadNews then [Event.watchEnd] else [])))) } := by
  rcases h1 : (drainOf env lig X).runaway with _ | _ <;>
    rcases h2 : X.hasBadNews with _ | _ <;>
      simp [auditOkState, auditPreState, h1, h2, List.append_assoc]

/-- C4 (corrected).  For an audit call whose drain hits the 1000-line
runaway bound with the "continue on failure" policy disabled — PROVIDED
the backlog remaining after the runaway does not itself run away inside
the teardown's own audit — the engine summarizes, invokes `teardown`
exactly once (exactly one `summarize` and one `uninstall` event are
added) and raises the fatal "BadNews jackpot" error, which propagates.
With the policy enabled, the condition is only reported ("Big problems")
and the audit call returns normally. -/
theorem Scenario.audit_runaway_fatal (env : ScenEnv) (lig : List Pat) (st : ScenState)
    (hb : st.hasBadNews = true)
    (hrw : (drainGo (mkIgnorelist env lig) st.pending 0).runaway = true) :
    (env.contOnFail = false →
      (drainGo (mkIgnorelist env [])
        ((drainGo (mkIgnorelist env lig) st.pending 0).remaining) 0).runaway = false →
      ∃ st', Scenario.audit env lig st
          = .error ("Looks like we hit a BadNews jackpot!", st') ∧
        st'.trace.count Event.summarize = st.trace.count Event.summarize + 1 ∧
        st'.trace.count Event.uninstall = st.trace.count Event.uninstall + 1 ∧
        st'.trace.count Event.printBigProblems
          = st.trace.count Event.printBigProblems + 1) ∧
    (env.contOnFail = true →
      Scenario.audit env lig st = .ok (failedCount env, auditOkState env lig st) ∧
      Event.printBigProblems ∈ (auditOkState env lig st).trace) := by
  have hdo : drainOf env lig st = drainGo (mkIgnorelist env lig) st.pending 0 := by
    simp [drainOf, hb]
  constructor
  · intro hco hnest
    rw [Scenario.audit_fatal env lig st (by rw [hdo, hrw, hco]; rfl)]
    rw [Scenario.teardown]
    have hdo2 : drainOf env []
        { auditFatalPreState env lig st with
          trace := (auditFatalPreState env lig st).trace
            ++ (teardownIdxList none env.components.length).map Event.compTeardown }
        = drainGo (mkIgnorelist env [])
            (drainGo (mkIgnorelist env lig) st.pending 0).remaining 0 := by
      simp [drainOf, auditFatalPreState, auditPreState, hb, hdo]
    rw [Scenario.audit_ok env []
      { auditFatalPreState env lig st with
        trace := (auditFatalPreState env lig st).trace
          ++ (teardownIdxList none env.components.length).map Event.compTeardown }
      (by rw [hdo2, hnest]; rfl)]
    dsimp only
    rw [auditOkState_eq, hdo2, hnest]
    refine ⟨_, rfl, ?_, ?_, ?_⟩ <;>
      (simp only [auditFatalPreState, auditPreState, hdo, hb, if_true, if_false,
         Bool.false_eq_true, List.append_assoc, List.count_append, List.count_cons,
         List.count_nil]
       rw [count_auditTrace_eq_zero env _ (by simp) (by simp),
         count_badNews_map_eq_zero _ _ (by simp),
         count_badNews_map_eq_zero _ _ (by simp),
         count_compTeardown_map_eq_zero _ _ (by simp)]
       simp)
  · intro hco
    constructor
    · exact Scenario.audit_ok env lig st (by rw [hdo, hrw, hco]; rfl)
    · simp [auditOkState, auditPreState, hdo, hrw]

/-- Outcome of an audit call whose runaway teardown itself runs away once
more before the backlog is exhausted: the fatal path is taken twice —
two `summarize` events — while only the innermost teardown completes
(one `uninstall`), and the jackpot error propagates from the inner
audit. -/
theorem Scenario.audit_double_runaway (env : ScenEnv) (lig : List Pat) (st : ScenState)
    (hb : st.hasBadNews = true)
    (hrw : (drainGo (mkIgnorelist env lig) st.pending 0).runaway = true)
    (hco : env.contOnFail = false)
    (hrw2 : (drainGo (mkIgnorelist env [])
      ((drainGo (mkIgnorelist env lig) st.pending 0).remaining) 0).runaway = true)
    (hrw3 : (drainGo (mkIgnorelist env [])
      ((drainGo (mkIgnorelist env [])
        ((drainGo (mkIgnorelist env lig) st.pending 0).remaining) 0).remaining) 0).runaway
      = false) :
    ∃ st', Scenario.audit env lig st = .error ("Looks like we hit a BadNews jackpot!", st') ∧
      st'.trace.count Event.summarize = st.trace.count Event.summarize + 2 ∧
      st'.trace.count Event.uninstall = st.trace.count Event.uninstall + 1 := by
  have hdo : drainOf env lig st = drainGo (mkIgnorelist env lig) st.pending 0 := by
    simp [drainOf, hb]
  rw [Scenario.audit_fatal env lig st (by rw [hdo, hrw, hco]; rfl)]
  rw [Scenario.teardown]
  have hdo2 : drainOf env []
      { auditFatalPreState env lig st with
        trace := (auditFatalPreState env lig st).trace
          ++ (teardownIdxList none env.components.length).map Event.compTeardown }
      = drainGo (mkIgnorelist env [])
          (drainGo (mkIgnorelist env lig) st.pending 0).remaining 0 := by
    simp [drainOf, auditFatalPreState, auditPreState, hb, hdo]
  rw [Scenario.audit_fatal env []
    { auditFatalPreState env lig st with
      trace := (auditFatalPreState env lig st).trace
        ++ (teardownIdxList none env.components.length).map Event.compTeardown }
    (by rw [hdo2, hrw2, hco]; rfl)]
  rw [Scenario.teardown]
  have hb1 : ({ auditFatalPreState env lig st with
      trace := (auditFatalPreState env lig st).trace
        ++ (teardownIdxList none env.components.length).map Event.compTeardown }
        : ScenState).hasBadNews = true := by
    simp [auditFatalPreState, auditPreState, hb]
  have hdo3 : drainOf env []
      { auditFatalPreState env []
          { auditFatalPreState env lig st with
            trace := (auditFatalPreState env lig st).trace
              ++ (teardownIdxList none env.components.length).map Event.compTeardown } with
        trace := (auditFatalPreState env []
          { auditFatalPreState env lig st with
            trace := (auditFatalPreState env lig st).trace
              ++ (teardownIdxList none env.components.length).map Event.compTeardown }).trace
          ++ (teardownIdxList none env.components.length).map Event.compTeardown }
      = drainGo (mkIgnorelist env [])
          (drainGo (mkIgnorelist env [])
            ((drainGo (mkIgnorelist env lig) st.pending 0).remaining) 0).remaining 0 := by
    simp [drainOf, auditFatalPreState, auditPreState, hb]
  rw [Scenario.audit_ok env []
    { auditFatalPreState env []
        { auditFatalPreState env lig st with
          trace := (auditFatalPreState env lig st).trace
            ++ (teardownIdxList none env.components.length).map Event.compTeardown } with
      trace := (auditFatalPreState env []
        { auditFatalPreState env lig st with
          trace := (auditFatalPreState env lig st).trace
            ++ (teardownIdxList none env.components.length).map Event.compTeardown }).trace
        ++ (teardownIdxList none env.components.length).map Event.compTeardown }
    (by rw [hdo3, hrw3]; rfl)]
  dsimp only
  rw [auditOkState_eq, hdo3, hrw3]
  refine ⟨_, rfl, ?_, ?_⟩ <;>
    (simp only [auditFatalPreState, auditPreState, hdo, hb, if_true, if_false,
       Bool.false_eq_true, List.append_assoc, List.count_append, List.count_cons,
       List.count_nil]
     rw [count_auditTrace_eq_zero env _ (by simp) (by simp),
       count_badNews_map_eq_zero _ _ (by simp),
       count_badNews_map_eq_zero _ _ (by simp),
       count_badNews_map_eq_zero _ _ (by simp),
       count_compTeardown_map_eq_zero _ _ (by simp)]
     simp)

/-- C4 counterexample.  With a 2000-line unignorable backlog, the first
audit call's runaway tears the Scenario down, but the teardown's own
audit drains the next 1000 lines and runs away AGAIN: the fatal path is
taken twice (two `summarize` events — teardown invoked twice, only the
inner one completing its `uninstall`) before the raise propagates, not
"exactly once" as the claim states. -/
theorem Scenario.audit_runaway_fatal_cex :
    ∃ st', Scenario.audit
        { components := [⟨true, true⟩], audits := [], cmIgnore := [], instIgnore := [],
          contOnFail := false } []
        { stats := initStats, pending := List.replicate 2000 "X", hasBadNews := true,
          trace := [] }
      = .error ("Looks like we hit a BadNews jackpot!", st') ∧
      st'.trace.count Event.summarize = List.count Event.summarize [] + 2 ∧
      st'.trace.count Event.uninstall = List.count Event.uninstall [] + 1 := by
  have hne : isIgnored (mkIgnorelist
      { components := [⟨true, true⟩], audits := [], cmIgnore := [], instIgnore := [],
        contOnFail := false } []) "X" = false := by decide
  have h2000 : drainGo (mkIgnorelist
      { components := [⟨true, true⟩], audits := [], cmIgnore := [], instIgnore := [],
        contOnFail := false } []) (List.replicate 2000 "X") 0
      = { remaining := List.replicate 1000 "X", errcount := 1000,
          bad := List.replicate 1000 "X", runaway := true } := by
    rw [drainGo_replicate_runaway _ "X" hne 2000 0 (by omega) (by omega)]
  have h1000 : drainGo (mkIgnorelist
      { components := [⟨true, true⟩], audits := [], cmIgnore := [], instIgnore := [],
        contOnFail := false } []) (List.replicate 1000 "X") 0
      = { remaining := [], errcount := 1000,
          bad := List.replicate 1000 "X", runaway := true } := by
    rw [drainGo_replicate_runaway _ "X" hne 1000 0 (by omega) (by omega)]
    norm_num
  exact Scenario.audit_double_runaway
    { components := [⟨true, true⟩], audits := [], cmIgnore := [], instIgnore := [],
      contOnFail := false } []
    { stats := initStats, pending := List.replicate 2000 "X", hasBadNews := true,
      trace := [] }
    rfl
    (by dsimp only; rw [h2000])
    rfl
    (by dsimp only; rw [h2000]; dsimp only; rw [h1000])
    (by dsimp only; rw [h2000]; dsimp only; rw [h1000]; dsimp only; rfl)

/-- Witness for the corrected C4 theorem: a 1000-line unignorable backlog
triggers the runaway with nothing left behind, so the nested-runaway
proviso holds. -/
theorem Scenario.audit_runaway_fatal_w :
    ((false : Bool) = false →
      (drainGo (mkIgnorelist
          { components := [⟨true, true⟩], audits := [], cmIgnore := [], instIgnore := [],
            contOnFail := false } [])
        ((drainGo (mkIgnorelist
            { components := [⟨true, true⟩], audits := [], cmIgnore := [], instIgnore := [],
              contOnFail := false } []) (List.replicate 1000 "X") 0).remaining) 0).runaway
        = false →
      ∃ st', Scenario.audit
          { components := [⟨true, true⟩], audits := [], cmIgnore := [], instIgnore := [],
            contOnFail := false } []
          { stats := initStats, pending := List.replicate 1000 "X", hasBadNews := true,
            trace := [] }
          = .error ("Looks like we hit a BadNews jackpot!", st') ∧
        st'.trace.count Event.summarize = List.count Event.summarize [] + 1 ∧
        st'.trace.count Event.uninstall = List.count Event.uninstall [] + 1 ∧
        st'.trace.count Event.printBigProblems
          = List.count Event.printBigProblems [] + 1) ∧
    ((false : Bool) = true →
      Scenario.audit
          { components := [⟨true, true⟩], audits := [], cmIgnore := [], instIgnore := [],
            contOnFail := false } []
          { stats := initStats, pending := List.replicate 1000 "X", hasBadNews := true,
            trace := [] }
        = .ok (failedCount
            { components := [⟨true, true⟩], audits := [], cmIgnore := [], instIgnore := [],
              contOnFail := false },
          auditOkState
            { components := [⟨true, true⟩], audits := [], cmIgnore := [], instIgnore := [],
              contOnFail := false } []
            { stats := initStats, pending := List.replicate 1000 "X", hasBadNews := true,
              trace := [] }) ∧
      Event.printBigProblems ∈ (auditOkState
        { components := [⟨true, true⟩], audits := [], cmIgnore := [], instIgnore := [],
          contOnFail := false } []
        { stats := initStats, pending := List.replicate 1000 "X", hasBadNews := true,
          trace := [] }).trace) :=
  Scenario.audit_runaway_fatal
    { components := [⟨true, true⟩], audits := [], cmIgnore := [], instIgnore := [],
      contOnFail := false } []
    { stats := initStats, pending := List.replicate 1000 "X", hasBadNews := true,
      trace := [] }
    rfl
    (by dsimp only
        rw [drainGo_replicate_runaway _ "X" (by decide) 1000 0 (by omega) (by omega)])

theorem passPairs_length {α : Type} :
    ∀ (l : List α) (tc : Nat), (passPairs l tc).length = l.length := by
  intro l
  induction l with
  | nil => intro tc; rfl
  | cons x xs ih => intro tc; simp [passPairs, ih]

theorem passPairs_map_fst {α : Type} :
    ∀ (l : List α) (tc : Nat), (passPairs l tc).map Prod.fst = l := by
  intro l
  induction l with
  | nil => intro tc; rfl
  | cons x xs ih => intro tc; simp [passPairs, ih]

theorem passPairs_get {α : Type} :
    ∀ (l : List α) (tc i : Nat), ((passPairs l tc)[i]?).map Prod.fst = l[i]? := by
  intro l
  induction l with
  | nil => intro tc i; rfl
  | cons x xs ih =>
    intro tc i
    cases i with
    | zero => simp [passPairs]
    | succ j => simpa [passPairs] using ih (tc + 1) j

/-- C8 (confirmed).  `AllOnce.run_loop` invokes `run_test` exactly once per
registered test, in registration order, and never reads its `iterations`
argument: the schedule has one entry per test, its tests are exactly the
registered list in order, and the schedule is the same for every value of
`iterations`. -/
theorem AllOnce.runs_each_test_once {α : Type} (tests : List α) (k : Nat) :
    (AllOnce.run_loop tests k).length = tests.length ∧
    (AllOnce.run_loop tests k).map Prod.fst = tests ∧
    AllOnce.run_loop tests k = AllOnce.run_loop tests 0 :=
  ⟨passPairs_length tests 1, passPairs_map_fst tests 1, rfl⟩

theorem seqGo_length_aux {α : Type} (tests : List α) (k : Nat) (hne : 0 < tests.length) :
    ∀ (n tc : Nat), k + 1 - tc ≤ n → tc ≤ k →
      (seqGo tests k tc).length = tests.length * ((k - tc) / tests.length + 1) := by
  intro n
  induction n with
  | zero => intro tc hfuel htc; omega
  | succ n ih =>
    intro tc hfuel htc
    rw [seqGo, if_pos ⟨htc, hne⟩]
    by_cases h2 : tc + tests.length ≤ k
    · rw [List.length_append, passPairs_length, ih (tc + tests.length) (by omega) h2]
      have hdiv := Nat.div_eq (k - tc) tests.length
      rw [if_pos ⟨hne, by omega⟩] at hdiv
      rw [hdiv]
      have he : k - tc - tests.length = k - (tc + tests.length) := by omega
      rw [he]
      ring
    · rw [seqGo, if_neg (by omega)]
      rw [List.length_append, passPairs_length]
      have h0 : (k - tc) / tests.length = 0 := Nat.div_eq_of_lt (by omega)
      simp [h0]

theorem seqGo_get_aux {α : Type} (tests : List α) (k : Nat) (hne : 0 < tests.length) :
    ∀ (n tc i : Nat), k + 1 - tc ≤ n → i < (seqGo tests k tc).length →
      ((seqGo tests k tc)[i]?.map Prod.fst) = tests[i % tests.length]? := by
  intro n
  induction n with
  | zero =>
    intro tc i hfuel hi
    rw [seqGo, if_neg (by omega)] at hi
    simp at hi
  | succ n ih =>
    intro tc i hfuel hi
    by_cases htc : tc ≤ k
    · rw [seqGo, if_pos ⟨htc, hne⟩] at hi ⊢
      rw [List.getElem?_append, passPairs_length]
      by_cases hil : i < tests.length
      · rw [if_pos hil, passPairs_get, Nat.mod_eq_of_lt hil]
      · rw [if_neg hil]
        have hlen : i - tests.length < (seqGo tests k (tc + tests.length)).length := by
          rw [List.length_append, passPairs_length] at hi
          omega
        rw [Nat.mod_eq_sub_mod (Nat.le_of_not_lt hil)]
        exact ih (tc + tests.length) (i - tests.length) (by omega) hlen
    · rw [seqGo, if_neg (by omega)] at hi
      simp at hi

/-- C3 (corrected).  `Sequence.run_loop` checks `testcount <= Iterations`
only BETWEEN passes: the inner `for` always finishes the pass it started,
so there is no mid-list truncation.  For L registered tests (L >= 1) and
`iterations = k >= 1`, the total number of `run_test` invocations is
`L * ((k-1)/L + 1)` — `k` rounded UP to a whole number of passes, which
equals `k` only when `L` divides `k` — while invocation `i` (0-indexed)
does select the test at index `i mod L` in registration order. -/
theorem Sequence.full_pass_schedule {α : Type} (tests : List α) (k : Nat)
    (hne : tests ≠ []) (hk : 1 ≤ k) :
    (Sequence.run_loop tests k).length
      = tests.length * ((k - 1) / tests.length + 1) ∧
    ∀ i, i < (Sequence.run_loop tests k).length →
      ((Sequence.run_loop tests k)[i]?.map Prod.fst) = tests[i % tests.length]? := by
  have hne' : 0 < tests.length := List.length_pos.mpr hne
  constructor
  · exact seqGo_length_aux tests k hne' (k + 1) 1 (by omega) hk
  · intro i hi
    exact seqGo_get_aux tests k hne' (k + 1) 1 i (by omega) hi

/-- C3 counterexample.  Sequence with 2 registered tests and
`iterations = 1` performs 2 `run_test` invocations, not exactly 1: the
final pass is not truncated mid-list. -/
theorem Sequence.run_loop_cex :
    (Sequence.run_loop [10, 20] 1).length = 2 ∧ (2 : Nat) ≠ 1 := by
  constructor
  · rw [Sequence.run_loop, seqGo, if_pos (by simp)]
    rw [seqGo, if_neg (by simp)]
    rfl
  · decide

/-- Witness for the corrected C3 theorem: L = 2, k = 3 gives
2 * ((3-1)/2 + 1) = 4 invocations, selecting tests 0,1,0,1. -/
theorem Sequence.full_pass_schedule_w :
    (Sequence.run_loop [10, 20] 3).length = 2 * ((3 - 1) / 2 + 1) ∧
    ∀ i, i < (Sequence.run_loop [10, 20] 3).length →
      ((Sequence.run_loop [10, 20] 3)[i]?.map Prod.fst) = [10, 20][i % 2]? :=
  Sequence.full_pass_schedule [10, 20] 3 (by decide) (by decide)
